import Mathlib

/-!
The cglm affine transforms: builders and decomposition.

A shallow embedding of `include/cglm/affine.h`.

* `float` is modelled by an arbitrary type `F` that carries the arithmetic
  operations the code uses (`0`, `1`, `+`, `-`, `*`, `/`, unary minus, `<`); the
  definitions assume no law of arithmetic. The C math library functions
  `sqrtf`, `cosf` and `sinf` are parameters of the definitions that call them.
* `binary32` is the arithmetic of the C type `float` itself: IEEE 754 single
  precision with rounding to nearest, signed zeros, infinities and NaN. The
  definitions are evaluated in it where rounding, underflow or overflow decide
  a claim.
* Theorems stated for every `F` with the operations alone hold for `binary32`
  as they stand. Theorems that use a law of arithmetic are stated for a
  linearly ordered field, or for the real numbers with `Real.sqrt`.
* `vec3`, `vec4` are `float[3]`, `float[4]`; `mat4` is `vec4[4]`, so `m i` is
  the column `m[i]` and `m i k` is the element `m[i][k]` (column `i`, row `k`).
* An output parameter whose previous contents survive some statement of the
  function is an argument of the embedding as well (`glm_rotate_make m ..`);
  an output that is assigned element by element before anything reads it is
  simply returned (`glm_decompose_rs`).
* `glm_scale_to` appears twice: as a function of `m` and `v` for a destination
  that does not overlap `m`, and statement by statement on a memory of matrices
  (`glm_scale_to_mem`) for the callers that pass `m` itself as destination
  (`glm_scale`, `glm_scale_uni`).
-/

namespace Cglm

/-- C type `vec3`, a `float[3]`. -/
abbrev vec3 (F : Type) := Fin 3 → F

/-- C type `vec4`, a `float[4]`. -/
abbrev vec4 (F : Type) := Fin 4 → F

/-- C type `mat4`, a `vec4[4]`: `m i` is column `i`, `m i k` its row `k`. -/
abbrev mat4 (F : Type) := Fin 4 → vec4 F

section Kernel

variable {F : Type} [Zero F] [One F] [Add F] [Sub F] [Mul F] [Div F] [Neg F] [LT F]
  [DecidableRel (LT.lt : F → F → Prop)]

/-- Passing a `vec4` (such as a matrix column `m[i]`) where a `vec3` is
expected: the callee sees the first three floats. -/
def vec4.xyz (v : vec4 F) : vec3 F := ![v 0, v 1, v 2]

/-- Storing a `vec3` result through a pointer to a `vec4` (such as `m[i]`):
the first three floats are overwritten, the fourth keeps its value. -/
def vec3.into (v : vec3 F) (dest : vec4 F) : vec4 F := ![v 0, v 1, v 2, dest 3]

/-- Assignment `m[i] := col` of a whole column. -/
def mat4.setCol (m : mat4 F) (i : Fin 4) (col : vec4 F) : mat4 F :=
  fun j => if j = i then col else m j

/-- Assignment `m[i][k] = x` of one element. -/
def mat4.setElem (m : mat4 F) (i k : Fin 4) (x : F) : mat4 F :=
  fun j l => if j = i ∧ l = k then x else m j l

/-- Modelled from the spec: `glm_mat4_identity` of `cglm/mat4.h` (Matrix
Kernel, "identity() -> Mat4"), which is not part of the sources at hand. It
overwrites all sixteen elements of its argument. -/
def glm_mat4_identity (_ : mat4 F) : mat4 F :=
  ![![1, 0, 0, 0], ![0, 1, 0, 0], ![0, 0, 1, 0], ![0, 0, 0, 1]]

/-- Modelled from the spec: `glm_vec3_copy` of `cglm/vec3.h` (Vector Kernel,
"copy"), which is not part of the sources at hand. -/
def glm_vec3_copy (a : vec3 F) : vec3 F := ![a 0, a 1, a 2]

/-- Modelled from the spec: `glm_vec4_copy` of `cglm/vec4.h` (Vector Kernel,
"copy"), which is not part of the sources at hand. -/
def glm_vec4_copy (v : vec4 F) : vec4 F := ![v 0, v 1, v 2, v 3]

/-- Modelled from the spec: `glm_vec3_scale` of `cglm/vec3.h` (Vector Kernel,
"scale(vector, scalar) -> vector"), which is not part of the sources at hand. -/
def glm_vec3_scale (v : vec3 F) (s : F) : vec3 F := ![v 0 * s, v 1 * s, v 2 * s]

/-- Modelled from the spec: `glm_vec4_scale` of `cglm/vec4.h` (Vector Kernel,
"scale(vector, scalar) -> vector"), which is not part of the sources at hand. -/
def glm_vec4_scale (v : vec4 F) (s : F) : vec4 F :=
  ![v 0 * s, v 1 * s, v 2 * s, v 3 * s]

/-- Modelled from the spec: `glm_vec3_negate` of `cglm/vec3.h` (Vector Kernel,
"negate"), which is not part of the sources at hand. -/
def glm_vec3_negate (v : vec3 F) : vec3 F := ![-v 0, -v 1, -v 2]

/-- Modelled from the spec: `glm_vec4_negate` of `cglm/vec4.h` (Vector Kernel,
"negate"), which is not part of the sources at hand. -/
def glm_vec4_negate (v : vec4 F) : vec4 F := ![-v 0, -v 1, -v 2, -v 3]

/-- Modelled from the spec: `glm_vec3_dot` of `cglm/vec3.h` (Vector Kernel,
"dot"), which is not part of the sources at hand. -/
def glm_vec3_dot (a b : vec3 F) : F := a 0 * b 0 + a 1 * b 1 + a 2 * b 2

/-- Modelled from the spec: `glm_vec3_cross` of `cglm/vec3.h` (Vector Kernel,
"cross (Vec3 only)"), which is not part of the sources at hand. -/
def glm_vec3_cross (a b : vec3 F) : vec3 F :=
  ![a 1 * b 2 - a 2 * b 1, a 2 * b 0 - a 0 * b 2, a 0 * b 1 - a 1 * b 0]

/-- Modelled from the spec: `glm_vec3_norm` of `cglm/vec3.h` (Vector Kernel,
"norm (Euclidean length)"), which is not part of the sources at hand. -/
def glm_vec3_norm (sqrtf : F → F) (v : vec3 F) : F := sqrtf (glm_vec3_dot v v)

/-- Modelled from the spec: `glm_vec3_normalize_to` of `cglm/vec3.h` (Vector
Kernel, "normalize_to"), which is not part of the sources at hand. The spec
describes it as a division by the norm with no check for a zero norm. -/
def glm_vec3_normalize_to (sqrtf : F → F) (v : vec3 F) : vec3 F :=
  glm_vec3_scale v (1 / glm_vec3_norm sqrtf v)

/-- Modelled from the spec: `glm_vec3_eq_all` of `cglm/vec3.h` (Vector Kernel,
"equal_all_components(vector) -> bool"), which is not part of the sources at
hand. The comparison `==` of the code is equality in an ordered field. -/
def glm_vec3_eq_all {F : Type} [LinearOrderedField F] (v : vec3 F) : Bool :=
  decide (v 0 = v 1) && decide (v 0 = v 2)

end Kernel

section Affine

variable {F : Type} [Zero F] [One F] [Add F] [Sub F] [Mul F] [Div F] [Neg F] [LT F]
  [DecidableRel (LT.lt : F → F → Prop)]

/-- Source `glm_translate_make(mat4 m, vec3 v)`, `affine.h` lines 50-55. -/
def glm_translate_make (m : mat4 F) (v : vec3 F) : mat4 F :=
  let m := glm_mat4_identity m
  m.setCol 3 ((glm_vec3_copy v).into (m 3))

/-- Source `glm_scale_to(mat4 m, vec3 v, mat4 dest)`, `affine.h` lines 65-73,
for a `dest` that does not overlap `m`; every column of `dest` is assigned. -/
def glm_scale_to (m : mat4 F) (v : vec3 F) : mat4 F :=
  ![glm_vec4_scale (m 0) (v 0),
    glm_vec4_scale (m 1) (v 1),
    glm_vec4_scale (m 2) (v 2),
    glm_vec4_copy (m 3)]

/-- Source `glm_scale_make(mat4 m, vec3 v)`, `affine.h` lines 81-88. -/
def glm_scale_make (m : mat4 F) (v : vec3 F) : mat4 F :=
  let m := glm_mat4_identity m
  let m := m.setElem 0 0 (v 0)
  let m := m.setElem 1 1 (v 1)
  let m := m.setElem 2 2 (v 2)
  m

/-- Source `glm_scale_to(mat4 m, vec3 v, mat4 dest)`, `affine.h` lines 65-73,
statement by statement on a memory `mem` of matrices addressed by pointers of
type `P`: every statement reads through the pointer `m` and writes through the
pointer `dest`, and the two pointers may be equal. Returns the memory. -/
def glm_scale_to_mem {P : Type} [DecidableEq P] (mem : P → mat4 F) (m : P) (v : vec3 F)
    (dest : P) : P → mat4 F :=
  let mem := Function.update mem dest ((mem dest).setCol 0 (glm_vec4_scale (mem m 0) (v 0)))
  let mem := Function.update mem dest ((mem dest).setCol 1 (glm_vec4_scale (mem m 1) (v 1)))
  let mem := Function.update mem dest ((mem dest).setCol 2 (glm_vec4_scale (mem m 2) (v 2)))
  let mem := Function.update mem dest ((mem dest).setCol 3 (glm_vec4_copy (mem m 3)))
  mem

/-- Source `glm_scale(mat4 m, vec3 v)`, `affine.h` lines 97-101: the call
`glm_scale_to(m, v, m)` with source and destination the same matrix; returns
the matrix left in `m`. -/
def glm_scale (m : mat4 F) (v : vec3 F) : mat4 F :=
  glm_scale_to_mem (fun _ : Unit => m) () v () ()

/-- Source `glm_scale_uni(mat4 m, float s)`, `affine.h` lines 110-115; returns
the matrix left in `m`. -/
def glm_scale_uni (m : mat4 F) (s : F) : mat4 F :=
  let v : vec3 F := ![s, s, s]
  glm_scale_to_mem (fun _ : Unit => m) () v () ()

/-- Source `glm_rotate_make(mat4 m, float angle, vec3 axis)`, `affine.h`
lines 126-148. -/
def glm_rotate_make (sqrtf cosf sinf : F → F) (m : mat4 F) (angle : F)
    (axis : vec3 F) : mat4 F :=
  let c := cosf angle
  let axisn := glm_vec3_normalize_to sqrtf axis
  let v := glm_vec3_scale axisn (1 - c)
  let vs := glm_vec3_scale axisn (sinf angle)
  let m := m.setCol 0 ((glm_vec3_scale axisn (v 0)).into (m 0))
  let m := m.setCol 1 ((glm_vec3_scale axisn (v 1)).into (m 1))
  let m := m.setCol 2 ((glm_vec3_scale axisn (v 2)).into (m 2))
  let m := m.setElem 0 0 (m 0 0 + c)
  let m := m.setElem 1 0 (m 1 0 - vs 2)
  let m := m.setElem 2 0 (m 2 0 + vs 1)
  let m := m.setElem 0 1 (m 0 1 + vs 2)
  let m := m.setElem 1 1 (m 1 1 + c)
  let m := m.setElem 2 1 (m 2 1 - vs 0)
  let m := m.setElem 0 2 (m 0 2 - vs 1)
  let m := m.setElem 1 2 (m 1 2 + vs 0)
  let m := m.setElem 2 2 (m 2 2 + c)
  let m := m.setElem 3 2 0
  let m := m.setElem 3 1 0
  let m := m.setElem 3 0 0
  let m := m.setElem 2 3 0
  let m := m.setElem 1 3 0
  let m := m.setElem 0 3 0
  let m := m.setElem 3 3 1
  m

/-- Source `glm_decompose_scalev(mat4 m, vec3 s)`, `affine.h` lines 156-162. -/
def glm_decompose_scalev (sqrtf : F → F) (m : mat4 F) : vec3 F :=
  ![glm_vec3_norm sqrtf (m 0).xyz,
    glm_vec3_norm sqrtf (m 1).xyz,
    glm_vec3_norm sqrtf (m 2).xyz]

/-- Source `glm_uniscaled(mat4 m)`, `affine.h` lines 172-178. -/
def glm_uniscaled {F : Type} [LinearOrderedField F] (sqrtf : F → F) (m : mat4 F) : Bool :=
  let s := glm_decompose_scalev sqrtf m
  glm_vec3_eq_all s

/-- Source `glm_decompose_rs(mat4 m, mat4 r, vec3 s)`, `affine.h` lines
188-217; returns the outputs `(r, s)`. -/
def glm_decompose_rs (sqrtf : F → F) (m : mat4 F) : mat4 F × vec3 F :=
  let t : vec4 F := ![0, 0, 0, 1]
  let r : mat4 F :=
    ![glm_vec4_copy (m 0), glm_vec4_copy (m 1), glm_vec4_copy (m 2), glm_vec4_copy t]
  let s : vec3 F :=
    ![glm_vec3_norm sqrtf (m 0).xyz,
      glm_vec3_norm sqrtf (m 1).xyz,
      glm_vec3_norm sqrtf (m 2).xyz]
  let r := r.setCol 0 (glm_vec4_scale (r 0) (1 / s 0))
  let r := r.setCol 1 (glm_vec4_scale (r 1) (1 / s 1))
  let r := r.setCol 2 (glm_vec4_scale (r 2) (1 / s 2))
  let v := glm_vec3_cross (m 0).xyz (m 1).xyz
  if glm_vec3_dot v (m 2).xyz < 0 then
    let r := r.setCol 0 (glm_vec4_negate (r 0))
    let r := r.setCol 1 (glm_vec4_negate (r 1))
    let r := r.setCol 2 (glm_vec4_negate (r 2))
    let s := glm_vec3_negate s
    (r, s)
  else
    (r, s)

/-- Source `glm_decompose(mat4 m, vec4 t, mat4 r, vec3 s)`, `affine.h` lines
228-233; returns the outputs `(t, r, s)`. -/
def glm_decompose (sqrtf : F → F) (m : mat4 F) : vec4 F × mat4 F × vec3 F :=
  let t := glm_vec4_copy (m 3)
  let rs := glm_decompose_rs sqrtf m
  (t, rs.1, rs.2)

end Affine

/-! ## Machine arithmetic: IEEE 754 binary32 -/

/-- The values of the C type `float` (IEEE 754 binary32). `fin neg m e` is the
finite number `(-1)^neg * m * 2^e`, always in canonical form: the zeros are
`m = 0, e = 0`, the subnormal numbers `0 < m < 2^23, e = -149`, the normal
numbers `2^23 <= m < 2^24, -149 <= e <= 104`. All NaNs are one value. `=` on
this type is identity of values: it tells `+0` from `-0` and makes NaN equal
to itself, unlike the C operator `==`. -/
inductive binary32 where
  | nan : binary32
  | inf (neg : Bool) : binary32
  | fin (neg : Bool) (m : Nat) (e : Int) : binary32
deriving DecidableEq

namespace binary32

/-- Number of binary digits of `n` (for `n < 2^fuel`). -/
def bitLen : Nat → Nat → Nat
  | 0, _ => 0
  | fuel + 1, n => if n = 0 then 0 else bitLen fuel (n / 2) + 1

/-- The float with sign `neg`, significand `q <= 2^24` and exponent `e`,
where `q` is already rounded: renormalizes `q = 2^24` and overflows to
infinity above the largest finite exponent. -/
def pack (neg : Bool) (q : Nat) (e : Int) : binary32 :=
  if q = 0 then fin neg 0 0
  else if q = 2 ^ 24 then (if 104 < e + 1 then inf neg else fin neg (2 ^ 23) (e + 1))
  else if 104 < e then inf neg
  else fin neg q e

/-- Rounding to nearest, ties to even, of the real number `(-1)^neg * x` with
`M * 2^E <= x < (M + 1) * 2^E`, where `sticky` tells whether `x` exceeds
`M * 2^E`. Callers that pass `sticky = true` pass an `M` of more than 26
digits. -/
def round (neg : Bool) (M : Nat) (E : Int) (sticky : Bool) : binary32 :=
  if M = 0 then fin neg 0 0
  else
    let s : Int := max ((bitLen 512 M : Int) - 24) (-149 - E)
    if s ≤ 0 then pack neg (M * 2 ^ (-s).toNat) (E + s)
    else
      let k := s.toNat
      let q := M / 2 ^ k
      let r := M % 2 ^ k
      let half := 2 ^ (k - 1)
      let up := decide (half < r) || (decide (r = half) && (sticky || decide (q % 2 = 1)))
      pack neg (if up then q + 1 else q) (E + s)

/-- The integer `(-1)^neg * n`. -/
def signed (neg : Bool) (n : Nat) : Int := if neg then -(n : Int) else (n : Int)

/-- Unary minus. -/
def neg : binary32 → binary32
  | nan => nan
  | inf s => inf (!s)
  | fin s m e => fin (!s) m e

/-- Addition, correctly rounded. -/
def add : binary32 → binary32 → binary32
  | nan, _ => nan
  | _, nan => nan
  | inf s, inf t => if s = t then inf s else nan
  | inf s, fin _ _ _ => inf s
  | fin _ _ _, inf t => inf t
  | fin s m e, fin t n f =>
    let E := min e f
    let S := signed s (m * 2 ^ (e - E).toNat) + signed t (n * 2 ^ (f - E).toNat)
    if S = 0 then fin (s && t) 0 0 else round (decide (S < 0)) S.natAbs E false

/-- Subtraction, correctly rounded. -/
def sub (a b : binary32) : binary32 := add a (neg b)

/-- Multiplication, correctly rounded. -/
def mul : binary32 → binary32 → binary32
  | nan, _ => nan
  | _, nan => nan
  | inf s, inf t => inf (xor s t)
  | inf s, fin t n _ => if n = 0 then nan else inf (xor s t)
  | fin s m _, inf t => if m = 0 then nan else inf (xor s t)
  | fin s m e, fin t n f => round (xor s t) (m * n) (e + f) false

/-- Division, correctly rounded; `x / 0` is an infinity and `0 / 0` is NaN. -/
def div : binary32 → binary32 → binary32
  | nan, _ => nan
  | _, nan => nan
  | inf _, inf _ => nan
  | inf s, fin t _ _ => inf (xor s t)
  | fin s _ _, inf t => fin (xor s t) 0 0
  | fin s m e, fin t n f =>
    if n = 0 then (if m = 0 then nan else inf (xor s t))
    else round (xor s t) (m * 2 ^ 50 / n) (e - f - 50) (decide (m * 2 ^ 50 % n ≠ 0))

/-- Integer square root by bisection on the binary digits `i - 1, ..., 0`. -/
def isqrtAux (R : Nat) : Nat → Nat → Nat
  | 0, res => res
  | i + 1, res => isqrtAux R i (if (res + 2 ^ i) * (res + 2 ^ i) ≤ R then res + 2 ^ i else res)

/-- The C function `sqrtf`, correctly rounded. -/
def sqrt : binary32 → binary32
  | nan => nan
  | inf s => if s then nan else inf false
  | fin s m e =>
    if m = 0 then fin s 0 0
    else if s then nan
    else
      let t : Nat := if (e - 60) % 2 = 0 then 60 else 61
      let R := m * 2 ^ t
      let S := isqrtAux R 64 0
      round false S ((e - t) / 2) (decide (S * S ≠ R))

/-- The C operator `<`. -/
def lt : binary32 → binary32 → Bool
  | nan, _ => false
  | _, nan => false
  | inf s, inf t => s && !t
  | inf s, fin _ _ _ => s
  | fin _ _ _, inf t => !t
  | fin s m e, fin t n f =>
    let E := min e f
    decide (signed s (m * 2 ^ (e - E).toNat) < signed t (n * 2 ^ (f - E).toNat))

/-- The C operator `<=`. -/
def le : binary32 → binary32 → Bool
  | nan, _ => false
  | _, nan => false
  | inf s, inf t => s || !t
  | inf s, fin _ _ _ => s
  | fin _ _ _, inf t => !t
  | fin s m e, fin t n f =>
    let E := min e f
    decide (signed s (m * 2 ^ (e - E).toNat) ≤ signed t (n * 2 ^ (f - E).toNat))

/-- The float nearest to `n * 2^k`. -/
def ofScaled (n : Nat) (k : Int) : binary32 := round false n k false

/-- The float with the given IEEE 754 bit pattern. -/
def ofBits (b : Nat) : binary32 :=
  let s := decide (b / 2 ^ 31 % 2 = 1)
  let ex : Nat := b / 2 ^ 23 % 2 ^ 8
  let fr : Nat := b % 2 ^ 23
  if ex = 255 then (if fr = 0 then inf s else nan)
  else if ex = 0 then (if fr = 0 then fin s 0 0 else fin s fr (-149))
  else fin s (2 ^ 23 + fr) ((ex : Int) - 150)

/-- The IEEE 754 bit pattern of a float (`0x7FC00000` for NaN). -/
def toBits : binary32 → Nat
  | nan => 0x7FC00000
  | inf s => (if s then 2 ^ 31 else 0) + 0x7F800000
  | fin s m e =>
    (if s then 2 ^ 31 else 0) +
      (if m < 2 ^ 23 then m else ((e + 150).toNat) * 2 ^ 23 + (m - 2 ^ 23))

instance : Zero binary32 := ⟨fin false 0 0⟩

instance : One binary32 := ⟨fin false (2 ^ 23) (-23)⟩

instance : Add binary32 := ⟨add⟩

instance : Sub binary32 := ⟨sub⟩

instance : Mul binary32 := ⟨mul⟩

instance : Div binary32 := ⟨div⟩

instance : Neg binary32 := ⟨neg⟩

instance : LT binary32 := ⟨fun a b => lt a b = true⟩

instance : LE binary32 := ⟨fun a b => le a b = true⟩

instance : DecidableRel (LT.lt : binary32 → binary32 → Prop) := fun a b =>
  inferInstanceAs (Decidable (lt a b = true))

instance : DecidableRel (LE.le : binary32 → binary32 → Prop) := fun a b =>
  inferInstanceAs (Decidable (le a b = true))

/-- The float nearest to pi, `0x40490FDB` (3.14159274). -/
def pi : binary32 := fin false 13176795 (-22)

/-- The C function `cosf` at the two angles at which the evaluations in
binary32 below call it: `cosf(0) = 1` and `cosf(pi) = -1` for the float `pi`
above. For every other argument this function returns NaN and stands for no
value of `cosf`. -/
def cosfAt : binary32 → binary32
  | fin _ 0 _ => 1
  | fin false 13176795 (-22) => fin true (2 ^ 23) (-23)
  | _ => nan

/-- The C function `sinf` at the two angles at which the evaluations in
binary32 below call it: `sinf(0) = 0` (with the sign of the argument) and
`sinf(pi) = 0xB3BBBD2E` (-8.74227766e-8) for the float `pi` above. For every
other argument this function returns NaN and stands for no value of `sinf`. -/
def sinfAt : binary32 → binary32
  | fin s 0 e => fin s 0 e
  | fin false 13176795 (-22) => fin true 12303662 (-47)
  | _ => nan

end binary32

section Vocabulary

/-- A `mat4` as a 4x4 matrix of linear algebra: the element at row `i`,
column `j` is the one stored as `m[j][i]` (column-major storage), so that
`m.toMatrix.mulVec p` is the matrix applied to the column vector `p` and
`*` on such matrices is the matrix product. -/
def mat4.toMatrix {F : Type} (m : mat4 F) : Matrix (Fin 4) (Fin 4) F :=
  Matrix.of fun i j => m j i

end Vocabulary

/-! ## Auxiliary lemmas -/

theorem castSucc_two : Fin.castSucc (2 : Fin 3) = (2 : Fin 4) := rfl

/-- All sixteen elements written by `glm_rotate_make`, in terms of the
normalized axis `n` as computed, `c = cosf angle` and `s = sinf angle`; no law
of arithmetic is used. -/
theorem rotate_make_eq {F : Type} [Zero F] [One F] [Add F] [Sub F] [Mul F] [Div F]
    (sqrtf cosf sinf : F → F) (m : mat4 F) (angle : F) (axis : vec3 F)
    (n : vec3 F) (hn : n = glm_vec3_normalize_to sqrtf axis)
    (c : F) (hc : c = cosf angle) (s : F) (hs : s = sinf angle) :
    glm_rotate_make sqrtf cosf sinf m angle axis =
      ![![n 0 * (n 0 * (1 - c)) + c, n 1 * (n 0 * (1 - c)) + n 2 * s,
          n 2 * (n 0 * (1 - c)) - n 1 * s, 0],
        ![n 0 * (n 1 * (1 - c)) - n 2 * s, n 1 * (n 1 * (1 - c)) + c,
          n 2 * (n 1 * (1 - c)) + n 0 * s, 0],
        ![n 0 * (n 2 * (1 - c)) + n 1 * s, n 1 * (n 2 * (1 - c)) - n 0 * s,
          n 2 * (n 2 * (1 - c)) + c, 0],
        ![0, 0, 0, 1]] := by
  subst hn hc hs
  funext i k
  fin_cases i <;> fin_cases k <;>
    simp [glm_rotate_make, mat4.setElem, mat4.setCol, vec3.into, glm_vec3_scale]

/-- The scale output of `glm_decompose_rs`: the column norms, all three negated
exactly when the handedness test `dot(cross(m[0], m[1]), m[2]) < 0` succeeds;
no law of arithmetic is used. -/
theorem decompose_rs_scale {F : Type} [Zero F] [One F] [Add F] [Sub F] [Mul F] [Div F] [Neg F]
    [LT F] [DecidableRel (LT.lt : F → F → Prop)] (sqrtf : F → F) (m : mat4 F) :
    (glm_vec3_dot (glm_vec3_cross (m 0).xyz (m 1).xyz) (m 2).xyz < 0 →
      ∀ i : Fin 3, (glm_decompose_rs sqrtf m).2 i
        = -glm_vec3_norm sqrtf (m i.castSucc).xyz) ∧
    (¬ glm_vec3_dot (glm_vec3_cross (m 0).xyz (m 1).xyz) (m 2).xyz < 0 →
      ∀ i : Fin 3, (glm_decompose_rs sqrtf m).2 i
        = glm_vec3_norm sqrtf (m i.castSucc).xyz) := by
  constructor
  · intro h i
    fin_cases i <;> simp [glm_decompose_rs, h, glm_vec3_negate, castSucc_two]
  · intro h i
    fin_cases i <;> simp [glm_decompose_rs, h, castSucc_two]

/-- The rotation output of `glm_decompose_rs`: column 3 is `(0,0,0,1)` and
column `i < 3` is `m[i]` times the reciprocal `1 / norm(m[i])`, negated exactly
when the handedness test succeeds; no law of arithmetic is used. -/
theorem decompose_rs_rotation {F : Type} [Zero F] [One F] [Add F] [Sub F] [Mul F] [Div F]
    [Neg F] [LT F] [DecidableRel (LT.lt : F → F → Prop)] (sqrtf : F → F) (m : mat4 F) :
    (glm_decompose_rs sqrtf m).1 3 = ![0, 0, 0, 1] ∧
    (glm_vec3_dot (glm_vec3_cross (m 0).xyz (m 1).xyz) (m 2).xyz < 0 →
      ∀ (i : Fin 3) (k : Fin 4), (glm_decompose_rs sqrtf m).1 i.castSucc k
        = -(m i.castSucc k * (1 / glm_vec3_norm sqrtf (m i.castSucc).xyz))) ∧
    (¬ glm_vec3_dot (glm_vec3_cross (m 0).xyz (m 1).xyz) (m 2).xyz < 0 →
      ∀ (i : Fin 3) (k : Fin 4), (glm_decompose_rs sqrtf m).1 i.castSucc k
        = m i.castSucc k * (1 / glm_vec3_norm sqrtf (m i.castSucc).xyz)) := by
  refine ⟨?_, ?_, ?_⟩
  · by_cases h : glm_vec3_dot (glm_vec3_cross (m 0).xyz (m 1).xyz) (m 2).xyz < 0 <;>
      simp [glm_decompose_rs, h, mat4.setCol, glm_vec4_copy]
  · intro h i k
    fin_cases i <;> fin_cases k <;>
      simp [glm_decompose_rs, h, mat4.setCol, glm_vec4_negate, glm_vec4_scale, glm_vec4_copy,
        castSucc_two]
  · intro h i k
    fin_cases i <;> fin_cases k <;>
      simp [glm_decompose_rs, h, mat4.setCol, glm_vec4_scale, glm_vec4_copy, castSucc_two]

/-- The sixteen elements written by `glm_scale_make`. -/
theorem scale_make_eq {F : Type} [LinearOrderedField F] (m : mat4 F) (v : vec3 F) :
    glm_scale_make m v
      = ![![v 0, 0, 0, 0], ![0, v 1, 0, 0], ![0, 0, v 2, 0], ![0, 0, 0, 1]] := by
  funext i k
  fin_cases i <;> fin_cases k <;> simp [glm_scale_make, glm_mat4_identity, mat4.setElem]

/-- The sixteen elements written by `glm_translate_make`. -/
theorem translate_make_eq {F : Type} [LinearOrderedField F] (m : mat4 F) (v : vec3 F) :
    glm_translate_make m v
      = ![![1, 0, 0, 0], ![0, 1, 0, 0], ![0, 0, 1, 0], ![v 0, v 1, v 2, 1]] := by
  funext i k
  fin_cases i <;> fin_cases k <;>
    simp [glm_translate_make, glm_mat4_identity, mat4.setCol, vec3.into, glm_vec3_copy,
      Matrix.vecHead, Matrix.vecTail]

/-- In-place `glm_scale_to(m, v, m)` leaves in `m` what the call with a
separate destination writes to `dest`. -/
theorem scale_eq_scale_to {F : Type} [LinearOrderedField F] (m : mat4 F) (v : vec3 F) :
    glm_scale_to_mem (fun _ : Unit => m) () v () () = glm_scale_to m v := by
  funext i k
  fin_cases i <;> fin_cases k <;>
    simp [glm_scale_to_mem, glm_scale_to, mat4.setCol, glm_vec4_scale, glm_vec4_copy]

/-- Elements of the first three columns of `glm_scale_to(m, v, dest)`. -/
theorem scale_to_apply {F : Type} [LinearOrderedField F] (m : mat4 F) (v : vec3 F)
    (i : Fin 3) (k : Fin 4) :
    glm_scale_to m v i.castSucc k = m i.castSucc k * v i := by
  fin_cases i <;> fin_cases k <;> rfl

/-- The sixteen elements left in `m` by `glm_scale_uni` on the identity
matrix. -/
theorem scale_uni_identity_eq {F : Type} [LinearOrderedField F] (m : mat4 F) (s : F) :
    glm_scale_uni (glm_mat4_identity m) s
      = ![![s, 0, 0, 0], ![0, s, 0, 0], ![0, 0, s, 0], ![0, 0, 0, 1]] := by
  show glm_scale_to_mem (fun _ : Unit => glm_mat4_identity m) () ![s, s, s] () () = _
  rw [scale_eq_scale_to]
  funext i k
  fin_cases i <;> fin_cases k <;>
    simp [glm_scale_to, glm_mat4_identity, glm_vec4_scale, glm_vec4_copy, Matrix.vecHead,
      Matrix.vecTail]

/-- The axis `(0, 0, 2^-80)` is not the zero vector. -/
theorem tiny_axis_ne_zero : (![0, 0, binary32.ofScaled 1 (-80)] : vec3 binary32) ≠ 0 :=
  fun h => absurd (congrFun h 2) (by decide)

set_option maxRecDepth 100000 in
/-- In binary32 the squared norm of the axis `(0, 0, 2^-80)` underflows to 0, so
its normalization divides by zero: the result is `(NaN, NaN, +inf)`. -/
theorem normalize_tiny_axis :
    glm_vec3_norm binary32.sqrt ![0, 0, binary32.ofScaled 1 (-80)] = 0 ∧
    glm_vec3_normalize_to binary32.sqrt ![0, 0, binary32.ofScaled 1 (-80)] 0 = binary32.nan ∧
    glm_vec3_normalize_to binary32.sqrt ![0, 0, binary32.ofScaled 1 (-80)] 1 = binary32.nan ∧
    glm_vec3_normalize_to binary32.sqrt ![0, 0, binary32.ofScaled 1 (-80)] 2
      = binary32.inf false := by
  decide

set_option maxRecDepth 100000 in
/-- In binary32 the squared norm of the axis `(2^70, 0, 0)` overflows, the norm
is `+inf` and the normalized axis is the zero vector. -/
theorem normalize_huge_axis :
    glm_vec3_norm binary32.sqrt ![binary32.ofScaled 1 70, 0, 0] = binary32.inf false ∧
    glm_vec3_normalize_to binary32.sqrt ![binary32.ofScaled 1 70, 0, 0] 0 = 0 ∧
    glm_vec3_normalize_to binary32.sqrt ![binary32.ofScaled 1 70, 0, 0] 1 = 0 ∧
    glm_vec3_normalize_to binary32.sqrt ![binary32.ofScaled 1 70, 0, 0] 2 = 0 := by
  decide

set_option maxRecDepth 100000 in
/-- In binary32, `glm_rotate_make` with angle 0 and the axis `(0, 0, 2^-80)`
writes NaN into `m[0][0]`. -/
theorem rotate_make_tiny_axis :
    glm_rotate_make binary32.sqrt binary32.cosfAt binary32.sinfAt 0 0
      ![0, 0, binary32.ofScaled 1 (-80)] 0 0 = binary32.nan := by
  decide

set_option maxRecDepth 100000 in
/-- In binary32 the matrix `diag(2^-60, 2^-60, -2^-60, 1)` has mutually
orthogonal columns of norm `2^-60`, but the triple product of the handedness
test underflows to zero: the branch is not taken, `r` is `diag(1, 1, -1, 1)`
and the scale output is `(2^-60, 2^-60, 2^-60)`. -/
theorem decompose_rs_underflow :
    ¬ glm_vec3_dot
        (glm_vec3_cross
          ((![![binary32.ofScaled 1 (-60), 0, 0, 0], ![0, binary32.ofScaled 1 (-60), 0, 0],
            ![0, 0, -binary32.ofScaled 1 (-60), 0], ![0, 0, 0, 1]] : mat4 binary32) 0).xyz
          ((![![binary32.ofScaled 1 (-60), 0, 0, 0], ![0, binary32.ofScaled 1 (-60), 0, 0],
            ![0, 0, -binary32.ofScaled 1 (-60), 0], ![0, 0, 0, 1]] : mat4 binary32) 1).xyz)
        ((![![binary32.ofScaled 1 (-60), 0, 0, 0], ![0, binary32.ofScaled 1 (-60), 0, 0],
            ![0, 0, -binary32.ofScaled 1 (-60), 0], ![0, 0, 0, 1]] : mat4 binary32) 2).xyz < 0 ∧
    (glm_decompose_rs binary32.sqrt
      (![![binary32.ofScaled 1 (-60), 0, 0, 0], ![0, binary32.ofScaled 1 (-60), 0, 0],
        ![0, 0, -binary32.ofScaled 1 (-60), 0], ![0, 0, 0, 1]] : mat4 binary32)).1 0 0 = 1 ∧
    (glm_decompose_rs binary32.sqrt
      (![![binary32.ofScaled 1 (-60), 0, 0, 0], ![0, binary32.ofScaled 1 (-60), 0, 0],
        ![0, 0, -binary32.ofScaled 1 (-60), 0], ![0, 0, 0, 1]] : mat4 binary32)).1 1 1 = 1 ∧
    (glm_decompose_rs binary32.sqrt
      (![![binary32.ofScaled 1 (-60), 0, 0, 0], ![0, binary32.ofScaled 1 (-60), 0, 0],
        ![0, 0, -binary32.ofScaled 1 (-60), 0], ![0, 0, 0, 1]] : mat4 binary32)).1 2 2 = -1 ∧
    (∀ i : Fin 3, (glm_decompose_rs binary32.sqrt
      (![![binary32.ofScaled 1 (-60), 0, 0, 0], ![0, binary32.ofScaled 1 (-60), 0, 0],
        ![0, 0, -binary32.ofScaled 1 (-60), 0], ![0, 0, 0, 1]] : mat4 binary32)).2 i
      = binary32.ofScaled 1 (-60)) := by
  decide

set_option maxRecDepth 100000 in
/-- In binary32, `glm_rotate_make` with the angle `pi` and the axis
`(2^70, 0, 0)`, whose normalization is the zero vector, writes
`diag(-1, -1, -1, 1)`: the upper-left block is `-I`, of determinant `-1`. -/
theorem rotate_make_huge_axis :
    glm_rotate_make binary32.sqrt binary32.cosfAt binary32.sinfAt 0 binary32.pi
      ![binary32.ofScaled 1 70, 0, 0]
      = ![![-1, 0, 0, 0], ![0, -1, 0, 0], ![0, 0, -1, 0], ![0, 0, 0, 1]] := by
  funext i k
  fin_cases i <;> fin_cases k <;> decide

set_option maxRecDepth 100000 in
/-- In binary32 the matrix `glm_scale_to(glm_rotate_make(0, (0,0,1)), (2^70, 1, 1))`
is `diag(2^70, 1, 1, 1)`; the squared norm of its column 0 overflows, so
`glm_decompose_rs` returns the scale `+inf` for it and the column `r[0] = 0`,
and the product `r[0][0] * s[0]` is NaN. -/
theorem decompose_rs_overflow :
    (glm_decompose_rs binary32.sqrt
      (glm_scale_to (glm_rotate_make binary32.sqrt binary32.cosfAt binary32.sinfAt 0 0
        ![0, 0, 1]) ![binary32.ofScaled 1 70, 1, 1])).2 0 = binary32.inf false ∧
    (glm_decompose_rs binary32.sqrt
      (glm_scale_to (glm_rotate_make binary32.sqrt binary32.cosfAt binary32.sinfAt 0 0
        ![0, 0, 1]) ![binary32.ofScaled 1 70, 1, 1])).1 0 0 = 0 ∧
    glm_rotate_make binary32.sqrt binary32.cosfAt binary32.sinfAt 0 0 ![0, 0, 1] 0 0 = 1 ∧
    (glm_decompose_rs binary32.sqrt
      (glm_scale_to (glm_rotate_make binary32.sqrt binary32.cosfAt binary32.sinfAt 0 0
        ![0, 0, 1]) ![binary32.ofScaled 1 70, 1, 1])).1 0 0 *
      (glm_decompose_rs binary32.sqrt
        (glm_scale_to (glm_rotate_make binary32.sqrt binary32.cosfAt binary32.sinfAt 0 0
          ![0, 0, 1]) ![binary32.ofScaled 1 70, 1, 1])).2 0 = binary32.nan := by
  decide
/-! ## Claims on the rotation builder -/

/-- C4, as amended: for every angle and every axis, `glm_rotate_make` writes the
Rodrigues formula evaluated in the order of the code: with `n` the normalized
axis as computed by `glm_vec3_normalize_to` (a unit vector only up to rounding,
and not at all when the norm computation underflows or overflows),
`c = cosf(angle)` and `s = sinf(angle)`, the element at row `k`, column `i` of
the upper-left 3x3 block, stored as `m[i][k]`, is `n_k * (n_i * (1 - c))` plus
`c` on the diagonal and plus or minus `n_j * s` off the diagonal, with the
signs of the cross-product matrix of `n`; the translation column and the
homogeneous row are `(0,0,0,1)`, and the previous contents of `m` do not
matter. Holds for every arithmetic, the one of binary32 included. -/
theorem C4_rotate_make_rodrigues {F : Type} [Zero F] [One F] [Add F] [Sub F] [Mul F] [Div F]
    (sqrtf cosf sinf : F → F) (m : mat4 F) (angle : F) (axis : vec3 F) :
    let n := glm_vec3_normalize_to sqrtf axis
    let c := cosf angle
    let s := sinf angle
    glm_rotate_make sqrtf cosf sinf m angle axis =
      ![![n 0 * (n 0 * (1 - c)) + c, n 1 * (n 0 * (1 - c)) + n 2 * s,
          n 2 * (n 0 * (1 - c)) - n 1 * s, 0],
        ![n 0 * (n 1 * (1 - c)) - n 2 * s, n 1 * (n 1 * (1 - c)) + c,
          n 2 * (n 1 * (1 - c)) + n 0 * s, 0],
        ![n 0 * (n 2 * (1 - c)) + n 1 * s, n 1 * (n 2 * (1 - c)) - n 0 * s,
          n 2 * (n 2 * (1 - c)) + c, 0],
        ![0, 0, 0, 1]] := by
  intro n c s
  exact rotate_make_eq sqrtf cosf sinf m angle axis n rfl c rfl s rfl

set_option maxRecDepth 100000 in
/-- Counterexample to C4 as stated, in binary32. For the nonzero axis
`(2^70, 0, 0)` the norm overflows, the normalized axis is the zero vector, not
a unit vector, and `glm_rotate_make` with the angle `pi` writes `-1` into
`m[0][0]`, where the rotation about the x axis has 1. For the nonzero axis
`(0, 0, 2^-80)` the norm underflows to 0, the normalized axis is
`(NaN, NaN, +inf)` and `glm_rotate_make` with angle 0 writes NaN into
`m[0][0]`. -/
theorem C4_counterexample :
    (![binary32.ofScaled 1 70, 0, 0] : vec3 binary32) ≠ 0 ∧
    glm_vec3_dot (glm_vec3_normalize_to binary32.sqrt ![binary32.ofScaled 1 70, 0, 0])
      (glm_vec3_normalize_to binary32.sqrt ![binary32.ofScaled 1 70, 0, 0]) = 0 ∧
    glm_rotate_make binary32.sqrt binary32.cosfAt binary32.sinfAt 0 binary32.pi
      ![binary32.ofScaled 1 70, 0, 0] 0 0 = -1 ∧
    (![0, 0, binary32.ofScaled 1 (-80)] : vec3 binary32) ≠ 0 ∧
    glm_vec3_dot (glm_vec3_normalize_to binary32.sqrt ![0, 0, binary32.ofScaled 1 (-80)])
      (glm_vec3_normalize_to binary32.sqrt ![0, 0, binary32.ofScaled 1 (-80)]) ≠ 1 ∧
    glm_rotate_make binary32.sqrt binary32.cosfAt binary32.sinfAt 0 0
      ![0, 0, binary32.ofScaled 1 (-80)] 0 0 = binary32.nan :=
  ⟨fun h => absurd (congrFun h 0) (by decide), by decide, by decide, tiny_axis_ne_zero,
    by decide, rotate_make_tiny_axis⟩

/-- C6, as amended: `glm_rotate_make` with angle 0 and any axis whose computed
norm is not zero yields the 4x4 identity matrix, whatever `m` held before. Only
`cosf(0) = 1` and `sinf(0) = 0` are used of the C library. -/
theorem C6_rotate_make_zero_angle {F : Type} [LinearOrderedField F]
    (sqrtf cosf sinf : F → F) (hc : cosf 0 = 1) (hs : sinf 0 = 0) (m : mat4 F)
    (axis : vec3 F) (_hn : glm_vec3_norm sqrtf axis ≠ 0) :
    glm_rotate_make sqrtf cosf sinf m 0 axis
      = ![![1, 0, 0, 0], ![0, 1, 0, 0], ![0, 0, 1, 0], ![0, 0, 0, 1]] := by
  rw [rotate_make_eq sqrtf cosf sinf m 0 axis _ rfl 1 hc.symm 0 hs.symm]
  simp

/-- Witness of the amended C6: the axis `(0,0,1)` over the real numbers. -/
theorem C6_rotate_make_zero_angle_witness :
    Real.cos 0 = 1 ∧ Real.sin 0 = 0 ∧ glm_vec3_norm Real.sqrt ![0, 0, 1] ≠ 0 ∧
    glm_rotate_make Real.sqrt Real.cos Real.sin 0 0 ![0, 0, 1]
      = ![![1, 0, 0, 0], ![0, 1, 0, 0], ![0, 0, 1, 0], ![0, 0, 0, 1]] :=
  ⟨Real.cos_zero, Real.sin_zero, by simp [glm_vec3_norm, glm_vec3_dot],
    C6_rotate_make_zero_angle Real.sqrt Real.cos Real.sin Real.cos_zero Real.sin_zero 0
      ![0, 0, 1] (by simp [glm_vec3_norm, glm_vec3_dot])⟩

set_option maxRecDepth 100000 in
/-- Counterexample to C6 as stated, in binary32: with angle 0 and the zero axis
the normalization divides 0 by 0 and `m[0][0]` is NaN, not 1; the same happens
for the nonzero axis `(0, 0, 2^-80)`, whose computed norm is 0. -/
theorem C6_counterexample :
    glm_rotate_make binary32.sqrt binary32.cosfAt binary32.sinfAt 0 0 ![0, 0, 0] 0 0
      = binary32.nan ∧
    glm_rotate_make binary32.sqrt binary32.cosfAt binary32.sinfAt 0 0 ![0, 0, 0]
      ≠ ![![1, 0, 0, 0], ![0, 1, 0, 0], ![0, 0, 1, 0], ![0, 0, 0, 1]] ∧
    glm_vec3_norm binary32.sqrt ![0, 0, binary32.ofScaled 1 (-80)] = 0 ∧
    glm_rotate_make binary32.sqrt binary32.cosfAt binary32.sinfAt 0 0
      ![0, 0, binary32.ofScaled 1 (-80)] 0 0 = binary32.nan := by
  refine ⟨by decide, ?_, normalize_tiny_axis.1, rotate_make_tiny_axis⟩
  intro h
  exact absurd (congrFun (congrFun h 0) 0) (by decide)

/-- C8: `glm_decompose(m)` returns as translation exactly column 3 of `m` as
stored (all four components), and its rotation and scale outputs are exactly
those of `glm_decompose_rs(m)`, for every matrix `m`. -/
theorem C8_decompose_translation_and_delegation {F : Type} [LinearOrderedField F]
    (sqrtf : F → F) (m : mat4 F) :
    (glm_decompose sqrtf m).1 = m 3 ∧
    (∀ k : Fin 4, (glm_decompose sqrtf m).1 k = m 3 k) ∧
    (glm_decompose sqrtf m).2.1 = (glm_decompose_rs sqrtf m).1 ∧
    (glm_decompose sqrtf m).2.2 = (glm_decompose_rs sqrtf m).2 := by
  have h : (glm_decompose sqrtf m).1 = m 3 := by
    funext k
    fin_cases k <;> rfl
  exact ⟨h, fun k => by rw [h], rfl, rfl⟩

/-- C10: for every matrix `m`, `glm_uniscaled(m)` is true if and only if the
three components of `glm_decompose_scalev(m)` are pairwise equal; and
`glm_uniscaled(glm_scale_make((1,2,3)))` is false. -/
theorem C10_uniscaled_iff (m m0 : mat4 ℝ) :
    (glm_uniscaled Real.sqrt m = true ↔
      (glm_decompose_scalev Real.sqrt m 0 = glm_decompose_scalev Real.sqrt m 1 ∧
       glm_decompose_scalev Real.sqrt m 0 = glm_decompose_scalev Real.sqrt m 2 ∧
       glm_decompose_scalev Real.sqrt m 1 = glm_decompose_scalev Real.sqrt m 2)) ∧
    glm_uniscaled Real.sqrt (glm_scale_make m0 ![1, 2, 3]) = false := by
  constructor
  · simp only [glm_uniscaled, glm_vec3_eq_all, Bool.and_eq_true, decide_eq_true_eq]
    constructor
    · rintro ⟨h1, h2⟩
      exact ⟨h1, h2, h1.symm.trans h2⟩
    · rintro ⟨h1, h2, _⟩
      exact ⟨h1, h2⟩
  · rw [scale_make_eq]
    have h2 : Real.sqrt (2 * 2) = 2 := Real.sqrt_mul_self (by norm_num)
    simp [glm_uniscaled, glm_vec3_eq_all, glm_decompose_scalev, glm_vec3_norm, glm_vec3_dot,
      vec4.xyz, h2]

/-- C11: for every scalar `s` (in particular every `s != 0`, negative ones
included), the uniform scale matrix built by the builders, `glm_scale_uni`
applied to the identity matrix with factor `s`, equivalently
`glm_scale_make((s,s,s))`, is reported as uniformly scaled: `glm_uniscaled`
returns true. -/
theorem C11_uniscaled_uniform (m0 m1 : mat4 ℝ) (s : ℝ) :
    glm_uniscaled Real.sqrt (glm_scale_uni (glm_mat4_identity m0) s) = true ∧
    glm_scale_uni (glm_mat4_identity m0) s = glm_scale_make m1 ![s, s, s] ∧
    glm_uniscaled Real.sqrt (glm_scale_make m1 ![s, s, s]) = true := by
  have h : glm_uniscaled Real.sqrt
      (![![s, 0, 0, 0], ![0, s, 0, 0], ![0, 0, s, 0], ![0, 0, 0, 1]] : mat4 ℝ) = true := by
    simp [glm_uniscaled, glm_vec3_eq_all, glm_decompose_scalev, glm_vec3_norm, glm_vec3_dot,
      vec4.xyz, Matrix.vecHead, Matrix.vecTail]
  rw [scale_uni_identity_eq, scale_make_eq]
  exact ⟨h, by simp, by simpa using h⟩

/-- C18, as amended: `glm_decompose_rs` follows the four documented steps,
with the normalization done as the code does it, by a product with the
reciprocal: for every `m`, with `n_i = norm(m[i])` as computed, column 3 of `r`
is `(0,0,0,1)` whatever `m`'s translation column is; if the test
`dot(cross(m[0], m[1]), m[2]) < 0` fails (in particular if the dot product is
`>= 0`) then `s = (n_0, n_1, n_2)` and `r[i] = m[i] * (1 / n_i)` for `i` in
`{0,1,2}`; if it succeeds then `s = (-n_0, -n_1, -n_2)` and
`r[i] = -(m[i] * (1 / n_i))`. Holds for every arithmetic, the one of binary32
included. -/
theorem C18_decompose_rs_steps {F : Type} [Zero F] [One F] [Add F] [Sub F] [Mul F] [Div F]
    [Neg F] [LT F] [DecidableRel (LT.lt : F → F → Prop)] (sqrtf : F → F) (m : mat4 F) :
    (glm_decompose_rs sqrtf m).1 3 = ![0, 0, 0, 1] ∧
    (¬ glm_vec3_dot (glm_vec3_cross (m 0).xyz (m 1).xyz) (m 2).xyz < 0 →
      (∀ i : Fin 3, (glm_decompose_rs sqrtf m).2 i
        = glm_vec3_norm sqrtf (m i.castSucc).xyz) ∧
      (∀ (i : Fin 3) (k : Fin 4), (glm_decompose_rs sqrtf m).1 i.castSucc k
        = m i.castSucc k * (1 / glm_vec3_norm sqrtf (m i.castSucc).xyz))) ∧
    (glm_vec3_dot (glm_vec3_cross (m 0).xyz (m 1).xyz) (m 2).xyz < 0 →
      (∀ i : Fin 3, (glm_decompose_rs sqrtf m).2 i
        = -glm_vec3_norm sqrtf (m i.castSucc).xyz) ∧
      (∀ (i : Fin 3) (k : Fin 4), (glm_decompose_rs sqrtf m).1 i.castSucc k
        = -(m i.castSucc k * (1 / glm_vec3_norm sqrtf (m i.castSucc).xyz)))) := by
  obtain ⟨hneg, hpos⟩ := decompose_rs_scale sqrtf m
  obtain ⟨h3, rneg, rpos⟩ := decompose_rs_rotation sqrtf m
  exact ⟨h3, fun h => ⟨hpos h, rpos h⟩, fun h => ⟨hneg h, rneg h⟩⟩

set_option maxRecDepth 100000 in
/-- Witness of the amended C18 in binary32: `diag(41, 1, 1, 1)`, on which the
handedness test fails. -/
theorem C18_decompose_rs_steps_witness :
    ¬ glm_vec3_dot
        (glm_vec3_cross
          ((![![binary32.ofScaled 41 0, 0, 0, 0], ![0, 1, 0, 0], ![0, 0, 1, 0],
            ![0, 0, 0, 1]] : mat4 binary32) 0).xyz
          ((![![binary32.ofScaled 41 0, 0, 0, 0], ![0, 1, 0, 0], ![0, 0, 1, 0],
            ![0, 0, 0, 1]] : mat4 binary32) 1).xyz)
        ((![![binary32.ofScaled 41 0, 0, 0, 0], ![0, 1, 0, 0], ![0, 0, 1, 0],
            ![0, 0, 0, 1]] : mat4 binary32) 2).xyz < 0 ∧
    ∀ i : Fin 3,
      (glm_decompose_rs binary32.sqrt
        (![![binary32.ofScaled 41 0, 0, 0, 0], ![0, 1, 0, 0], ![0, 0, 1, 0],
          ![0, 0, 0, 1]] : mat4 binary32)).2 i
        = glm_vec3_norm binary32.sqrt
            ((![![binary32.ofScaled 41 0, 0, 0, 0], ![0, 1, 0, 0], ![0, 0, 1, 0],
              ![0, 0, 0, 1]] : mat4 binary32) i.castSucc).xyz :=
  ⟨by decide, ((C18_decompose_rs_steps binary32.sqrt _).2.1 (by decide)).1⟩

set_option maxRecDepth 100000 in
/-- Counterexample to C18 as stated, in binary32: for `m = diag(41, 1, 1, 1)`
the column norms are `41, 1, 1` (nonzero), the dot product of the handedness
test is `41 >= 0`, and `r[0][0]` is `41 * (1/41) = 0x3F7FFFFF` (0.99999994),
whereas `m[0][0] / n_0 = 41 / 41 = 0x3F800000` (1). -/
theorem C18_counterexample :
    (∀ i : Fin 3, glm_vec3_norm binary32.sqrt
      ((![![binary32.ofScaled 41 0, 0, 0, 0], ![0, 1, 0, 0], ![0, 0, 1, 0],
        ![0, 0, 0, 1]] : mat4 binary32) i.castSucc).xyz ≠ 0) ∧
    0 ≤ glm_vec3_dot
        (glm_vec3_cross
          ((![![binary32.ofScaled 41 0, 0, 0, 0], ![0, 1, 0, 0], ![0, 0, 1, 0],
            ![0, 0, 0, 1]] : mat4 binary32) 0).xyz
          ((![![binary32.ofScaled 41 0, 0, 0, 0], ![0, 1, 0, 0], ![0, 0, 1, 0],
            ![0, 0, 0, 1]] : mat4 binary32) 1).xyz)
        ((![![binary32.ofScaled 41 0, 0, 0, 0], ![0, 1, 0, 0], ![0, 0, 1, 0],
            ![0, 0, 0, 1]] : mat4 binary32) 2).xyz ∧
    binary32.toBits ((glm_decompose_rs binary32.sqrt
      (![![binary32.ofScaled 41 0, 0, 0, 0], ![0, 1, 0, 0], ![0, 0, 1, 0],
        ![0, 0, 0, 1]] : mat4 binary32)).1 0 0) = 0x3F7FFFFF ∧
    binary32.toBits (binary32.ofScaled 41 0 /
      glm_vec3_norm binary32.sqrt
        ((![![binary32.ofScaled 41 0, 0, 0, 0], ![0, 1, 0, 0], ![0, 0, 1, 0],
          ![0, 0, 0, 1]] : mat4 binary32) 0).xyz) = 0x3F800000 ∧
    (glm_decompose_rs binary32.sqrt
      (![![binary32.ofScaled 41 0, 0, 0, 0], ![0, 1, 0, 0], ![0, 0, 1, 0],
        ![0, 0, 0, 1]] : mat4 binary32)).1 0 0
      ≠ (![![binary32.ofScaled 41 0, 0, 0, 0], ![0, 1, 0, 0], ![0, 0, 1, 0],
          ![0, 0, 0, 1]] : mat4 binary32) 0 0 /
        glm_vec3_norm binary32.sqrt
          ((![![binary32.ofScaled 41 0, 0, 0, 0], ![0, 1, 0, 0], ![0, 0, 1, 0],
            ![0, 0, 0, 1]] : mat4 binary32) 0).xyz := by
  decide

/-! ## Claims on the translation and scale builders -/

/-- C12: for every vector `v`, `glm_translate_make(v)` is the identity matrix
with rows 0-2 of column 3 set to `v`: `m[3] = (v0, v1, v2, 1)`, columns 0-2
are the identity's columns, and the result does not depend on the previous
contents of `m`. -/
theorem C12_translate_make {F : Type} [LinearOrderedField F] (m m1 : mat4 F) (v : vec3 F) :
    glm_translate_make m v 3 = ![v 0, v 1, v 2, 1] ∧
    glm_translate_make m v 0 = ![1, 0, 0, 0] ∧
    glm_translate_make m v 1 = ![0, 1, 0, 0] ∧
    glm_translate_make m v 2 = ![0, 0, 1, 0] ∧
    (∀ i : Fin 3, glm_translate_make m v i.castSucc = glm_mat4_identity m1 i.castSucc) ∧
    glm_translate_make m v = glm_translate_make m1 v := by
  rw [translate_make_eq m v, translate_make_eq m1 v]
  refine ⟨by simp, by simp, by simp, by simp, ?_, rfl⟩
  intro i
  fin_cases i <;> simp [glm_mat4_identity, castSucc_two]

/-- C13: applying the matrix built by `glm_translate_make(v)` to a homogeneous
point (column-major matrix-vector product) translates it by `v`: for every `v`
and every point `p`, `M * (p0, p1, p2, 1) = (p0+v0, p1+v1, p2+v2, 1)`; in
particular `glm_translate_make((1,2,3))` applied to the origin `(0,0,0,1)`
yields `(1,2,3,1)`. -/
theorem C13_translate_make_apply {F : Type} [LinearOrderedField F] (m : mat4 F)
    (v p : vec3 F) :
    (glm_translate_make m v).toMatrix.mulVec ![p 0, p 1, p 2, 1]
      = ![p 0 + v 0, p 1 + v 1, p 2 + v 2, 1] ∧
    (glm_translate_make m ![1, 2, 3]).toMatrix.mulVec ![0, 0, 0, 1] = ![1, 2, 3, 1] := by
  rw [translate_make_eq, translate_make_eq]
  constructor
  · funext k
    fin_cases k <;>
      simp [mat4.toMatrix, Matrix.mulVec, Matrix.dotProduct, Fin.sum_univ_four, Matrix.vecHead,
        Matrix.vecTail]
  · funext k
    fin_cases k <;>
      simp [mat4.toMatrix, Matrix.mulVec, Matrix.dotProduct, Fin.sum_univ_four, Matrix.vecHead,
        Matrix.vecTail]

/-- C14: for every matrix `m` and vector `v`, `glm_scale_to(m, v)` returns
`dest` with `dest[i][k] = m[i][k] * v[i]` for every column `i` in `{0,1,2}` and
every row `k` in `{0,1,2,3}`, and with column 3 copied unchanged
(`dest[3] = m[3]`). -/
theorem C14_scale_to {F : Type} [LinearOrderedField F] (m : mat4 F) (v : vec3 F) :
    (∀ (i : Fin 3) (k : Fin 4), glm_scale_to m v i.castSucc k = m i.castSucc k * v i) ∧
    glm_scale_to m v 3 = m 3 := by
  constructor
  · exact scale_to_apply m v
  · funext k
    fin_cases k <;> simp [glm_scale_to, glm_vec4_copy]

/-- C15: the in-place variants agree with `glm_scale_to`: for every matrix
`m`, vector `v` and scalar `s`, the matrix left in `m` by `glm_scale(m, v)`
equals the `dest` produced by `glm_scale_to(m, v, dest)` from the original `m`
(which leaves `m` itself unchanged), and `glm_scale_uni(m, s)` gives the same
matrix as `glm_scale(m, (s,s,s))`. -/
theorem C15_scale_in_place {F : Type} [LinearOrderedField F] (m d : mat4 F) (v : vec3 F)
    (s : F) :
    glm_scale m v
      = glm_scale_to_mem (fun p : Bool => if p then d else m) false v true true ∧
    glm_scale_to_mem (fun p : Bool => if p then d else m) false v true false = m ∧
    glm_scale m v = glm_scale_to m v ∧
    glm_scale_uni m s = glm_scale m ![s, s, s] := by
  have h1 : glm_scale_to_mem (fun p : Bool => if p then d else m) false v true true
      = glm_scale_to m v := by
    funext i k
    fin_cases i <;> fin_cases k <;>
      simp [glm_scale_to_mem, glm_scale_to, mat4.setCol, glm_vec4_scale, glm_vec4_copy]
  have h2 : glm_scale m v = glm_scale_to m v := scale_eq_scale_to m v
  refine ⟨h2.trans h1.symm, ?_, h2, rfl⟩
  simp [glm_scale_to_mem]

/-- C16: for every vector `v`, `glm_scale_make(v)` is the identity matrix with
its diagonal set to `(v0, v1, v2)` (and `m[3][3] = 1`, all off-diagonal entries
0), and it equals `glm_scale_to` applied to the identity matrix with the same
`v`. -/
theorem C16_scale_make {F : Type} [LinearOrderedField F] (m m1 : mat4 F) (v : vec3 F) :
    glm_scale_make m v
      = ![![v 0, 0, 0, 0], ![0, v 1, 0, 0], ![0, 0, v 2, 0], ![0, 0, 0, 1]] ∧
    (∀ i k : Fin 4, i ≠ k → glm_scale_make m v i k = 0) ∧
    (∀ i : Fin 3, glm_scale_make m v i.castSucc i.castSucc = v i) ∧
    glm_scale_make m v 3 3 = 1 ∧
    glm_scale_make m v = glm_scale_to (glm_mat4_identity m1) v := by
  rw [scale_make_eq]
  refine ⟨rfl, ?_, ?_, by simp, ?_⟩
  · intro i k hik
    fin_cases i <;> fin_cases k <;> simp [Matrix.vecHead, Matrix.vecTail] at hik ⊢
  · intro i
    fin_cases i <;> simp [castSucc_two]
  · funext i k
    fin_cases i <;> fin_cases k <;>
      simp [glm_scale_to, glm_mat4_identity, glm_vec4_scale, glm_vec4_copy, Matrix.vecHead,
        Matrix.vecTail]

/-- C17: scaling by the unit vector is the identity operation: for every
matrix `M`, `glm_scale_to(M, (1,1,1), dest)` leaves `dest` equal to `M` in all
16 entries. -/
theorem C17_scale_to_ones {F : Type} [LinearOrderedField F] (M : mat4 F) :
    glm_scale_to M ![1, 1, 1] = M ∧
    (∀ i k : Fin 4, glm_scale_to M ![1, 1, 1] i k = M i k) := by
  have h : glm_scale_to M ![1, 1, 1] = M := by
    funext i k
    fin_cases i <;> fin_cases k <;> simp [glm_scale_to, glm_vec4_scale, glm_vec4_copy]
  exact ⟨h, fun i k => by rw [h]⟩

end Cglm
